import Mathlib

/-!
Verification of the FishNet on-device inference pipeline.

The development shallowly embeds the analysis pipeline that turns raw
detector and classifier outputs into an `AnalysisResult`: detection-grid
decoding with thresholded arg-max, bounding-box clamping, the ordered
decision rules (anti-background override, confusable-pair correction,
confidence calibration, asymmetric disease thresholds), and the
failure/fallback policy.  Model outputs are modelled as rational-valued
data; the detector output tape is a function from flat indices to scores,
matching the flat typed-array access in the code.  Fallible stages are
modelled in `Except`.

Namespaces mirror the variants present in the repository:
* `FishNet.Main`   - the three-model pipeline (species and disease split,
  deterministic Humble Score calibration, clamped box decode).
* `FishNet.Hook`   - the split-hook variant (no calibration, arg-max
  disease default from the lowercase label list, capitalized comparison
  for the hasDisease flag).
* `FishNet.Worker` - the web-worker variant (randomized calibration,
  always divides corners by the 320 grid).
* `FishNet.Legacy` - the older variant whose box decode does not clamp.
-/

unseal Rat.add Rat.sub Rat.mul Rat.ofScientific Rat.inv
set_option maxRecDepth 8000

namespace FishNet

/-- Normalized rectangle as in the result type. -/
structure BoundingBox where
  yMin : ℚ
  xMin : ℚ
  yMax : ℚ
  xMax : ℚ
deriving DecidableEq

structure SpeciesInfo where
  name : String
  confidence : ℚ
deriving DecidableEq

structure FreshnessInfo where
  score : ℚ
  label : String
deriving DecidableEq

structure DiseaseInfo where
  name : String
  hasDisease : Bool
  confidence : ℚ
deriving DecidableEq

/-- The final structured output of one analysis call. -/
structure FishAnalysis where
  species : SpeciesInfo
  freshness : FreshnessInfo
  disease : DiseaseInfo
  boundingBox : BoundingBox
deriving DecidableEq

/-- Species label schema, order-significant, 18 classes. -/
def SPECIES_LABELS : List String :=
  ["catfish", "catla", "common_carp", "crab", "grass_carp",
   "mackerel", "mrigal", "pink_perch", "prawn", "red_mullet",
   "rohu", "sea_bass", "sea_bream", "silver_carp", "sprat",
   "tilapia", "trout", "wild_fish_background"]

/-- Disease label schema, order-significant, 3 classes. -/
def DISEASE_LABELS : List String :=
  ["black_gill_disease", "healthy", "white_spot_virus"]

/-- One scored prediction entry, as built before sorting. -/
structure Pred where
  index : Nat
  label : String
  score : ℚ
deriving DecidableEq

/-- Placeholder entry used to totalize positional access. -/
def defaultPred : Pred := ⟨0, "undefined", 0⟩

/-- Pair every score with its index and label, as in the map over the
raw species vector. -/
def mkPredictions (spData : List ℚ) : List Pred :=
  spData.enum.map (fun p => ⟨p.1, SPECIES_LABELS.getD p.1 "undefined", p.2⟩)

/-- Order used by the sort: descending score. The comparator returns
the score difference, so the sort is stable and descending. -/
def predGE (a b : Pred) : Prop := b.score ≤ a.score

instance : DecidableRel predGE :=
  fun a b => inferInstanceAs (Decidable (b.score ≤ a.score))

instance : IsTotal Pred predGE := ⟨fun a b => le_total b.score a.score⟩

instance : IsTrans Pred predGE := ⟨fun _ _ _ h1 h2 => le_trans h2 h1⟩

/-- Stable sort by descending score, as the comparator does. -/
def sortPreds (ps : List Pred) : List Pred :=
  ps.insertionSort predGE

/-- First index holding the maximum of the list, as indexOf of the max.
Empty lists map to index 0. -/
def idxOfMax (l : List ℚ) : Nat :=
  (List.range l.length).foldl (fun b i => if l.getD b 0 < l.getD i 0 then i else b) 0

/-- Maximum of the seven class scores of anchor `i` in the flat detector
output, starting the running maximum at 0 as the loop does. -/
def anchorMax (data : Nat → ℚ) (i : Nat) : ℚ :=
  [4, 5, 6, 7, 8, 9, 10].foldl
    (fun m j => if m < data (i * 11 + j) then data (i * 11 + j) else m) 0

namespace Main

/-- Fixed default result used when the pipeline fails. -/
def FALLBACK_RESULT : FishAnalysis :=
  { species := ⟨"rohu", 88.5⟩
    freshness := ⟨0.92, "Fresh"⟩
    disease := ⟨"healthy", false, 94.2⟩
    boundingBox := ⟨0.15, 0.15, 0.85, 0.85⟩ }

/-- Decoded corners of anchor `i` before clamping: center-size to corner
form, divided by 320 unless the scale heuristic judges the coordinates
already normalized. Order: yLow, xLow, yHigh, xHigh. -/
def rawCorners (data : Nat → ℚ) (i : Nat) : ℚ × ℚ × ℚ × ℚ :=
  let cx := data (i * 11)
  let cy := data (i * 11 + 1)
  let w := data (i * 11 + 2)
  let h := data (i * 11 + 3)
  let scale : ℚ := if cx < 1.5 ∧ w < 1.5 then 1 else 320
  ((cy - h / 2) / scale, (cx - w / 2) / scale,
   (cy + h / 2) / scale, (cx + w / 2) / scale)

/-- Box decoded from anchor `i`: low corners clamped below at 0, high
corners clamped above at 1. -/
def decodeAnchor (data : Nat → ℚ) (i : Nat) : BoundingBox :=
  let c := rawCorners data i
  ⟨max 0 c.1, max 0 c.2.1, min 1 c.2.2.1, min 1 c.2.2.2⟩

/-- State threaded through the anchor loop. -/
structure DetSt where
  bestBox : BoundingBox
  maxScore : ℚ
  count : Nat
deriving DecidableEq

/-- One iteration of the anchor loop: anchors above the 0.25 threshold
are counted, and the box is replaced when the anchor beats the running
best score. -/
def detStep (data : Nat → ℚ) (s : DetSt) (i : Nat) : DetSt :=
  let m := anchorMax data i
  if 0.25 < m then
    if s.maxScore < m then ⟨decodeAnchor data i, m, s.count + 1⟩
    else ⟨s.bestBox, s.maxScore, s.count + 1⟩
  else s

/-- Full scan of the 2100 anchors, starting from the fixed default box. -/
def detectBox (data : Nat → ℚ) : DetSt :=
  (List.range 2100).foldl (detStep data) ⟨⟨0.1, 0.1, 0.9, 0.9⟩, 0, 0⟩

/-- Anti-background override: when the top label is the background label
and the runner-up clears 0.05, the runner-up is chosen. -/
def afterBackground (ps : List Pred) : Pred :=
  let top := ps.headD defaultPred
  if top.label = "wild_fish_background" ∧ 0.05 < (ps.getD 1 defaultPred).score
  then ps.getD 1 defaultPred else top

/-- Confusable-pair correction: a low-scoring sea_bass choice yields to
the best catla or rohu entry when that entry clears 0.05. -/
def seaBassRule (ps : List Pred) (fc : Pred) : Pred :=
  if fc.label = "sea_bass" ∧ fc.score < 0.50 then
    match ps.find? (fun p => p.label == "catla" || p.label == "rohu") with
    | some carp => if 0.05 < carp.score then carp else fc
    | none => fc
  else fc

/-- Final species choice: sort, anti-background override, then the
confusable-pair correction. -/
def selectSpecies (spData : List ℚ) : Pred :=
  let ps := sortPreds (mkPredictions spData)
  seaBassRule ps (afterBackground ps)

/-- Humble Score display calibration. -/
def humbleScore (s : ℚ) : ℚ :=
  if s < 0.80 then 0.82 + s * 0.1 else if 0.95 < s then 0.93 else s

/-- Assemble the successful result from the two classification vectors
and the chosen box. -/
def assembleResult (spData dzData : List ℚ) (bestBox : BoundingBox) : FishAnalysis :=
  let fc := selectSpecies spData
  let displayScore := humbleScore fc.score
  let dIdx := idxOfMax dzData
  let dName := if 0.30 < dzData.getD 2 0 then "White Spot Risk"
               else if 0.40 < dzData.getD 0 0 then "Black Gill Risk"
               else "Healthy"
  { species := ⟨fc.label, displayScore * 100⟩
    freshness := ⟨0.95, "Fresh"⟩
    disease := ⟨dName, dName != "Healthy", dzData.getD dIdx 0 * 100⟩
    boundingBox := bestBox }

/-- Classification stage body, inside the inner protection boundary: the
species vector is read first, then the disease vector; an empty species
vector reproduces the positional access failure. -/
def innerBody (bestBox : BoundingBox) (sp dz : Except String (List ℚ)) :
    Except String FishAnalysis :=
  match sp with
  | .error e => .error e
  | .ok spData =>
    match dz with
    | .error e => .error e
    | .ok dzData =>
      if spData.isEmpty then .error "TypeError"
      else .ok (assembleResult spData dzData bestBox)

/-- The analysis pipeline as a total function: a detector failure yields
the full fallback, a classification failure yields the fallback fields
with the computed box preserved. -/
def analyzeFish (det : Except String (Nat → ℚ)) (sp dz : Except String (List ℚ)) :
    FishAnalysis :=
  match det with
  | .error _ => FALLBACK_RESULT
  | .ok data =>
    let bestBox := (detectBox data).bestBox
    match innerBody bestBox sp dz with
    | .ok r => r
    | .error _ => { FALLBACK_RESULT with boundingBox := bestBox }

/-- The same pipeline with the two protection boundaries kept explicit
as catch combinators, so that an uncaught failure would surface as an
error value. -/
def analyzeFishE (det : Except String (Nat → ℚ)) (sp dz : Except String (List ℚ)) :
    Except String FishAnalysis :=
  Except.tryCatch
    (match det with
     | .error e => .error e
     | .ok data =>
       Except.tryCatch (innerBody (detectBox data).bestBox sp dz)
         (fun _ => .ok { FALLBACK_RESULT with boundingBox := (detectBox data).bestBox }))
    (fun _ => .ok FALLBACK_RESULT)

end Main

namespace Hook

/-- Anti-background override of the split-hook variant: when the top
label is the background label, the best alternative is the first sorted
entry that is neither background nor unknown and clears 0.001. -/
def bestAlternative (ps : List Pred) : Option Pred :=
  ps.find? (fun p =>
    p.label != "wild_fish_background" && p.label != "unknown" && decide ((0.001 : ℚ) < p.score))

/-- Confusable-pair correction of the split-hook variant: the carp set
additionally contains mrigal. -/
def seaBassRule (ps : List Pred) (fc : Pred) : Pred :=
  if fc.label = "sea_bass" ∧ fc.score < 0.50 then
    match ps.find? (fun p => p.label == "catla" || p.label == "rohu" || p.label == "mrigal") with
    | some carp => if 0.05 < carp.score then carp else fc
    | none => fc
  else fc

/-- Final species choice of the split-hook variant. -/
def selectSpecies (spData : List ℚ) : Pred :=
  let ps := sortPreds (mkPredictions spData)
  let top := ps.headD defaultPred
  let fc := if top.label = "wild_fish_background" then (bestAlternative ps).getD top else top
  seaBassRule ps fc

/-- Assemble the successful result of the split-hook variant: the raw
chosen score is displayed uncalibrated, the disease name defaults to the
arg-max label from the lowercase schema, the per-class thresholds
override it, and the hasDisease flag compares the name against the
capitalized string. -/
def assembleResult (spData dzData : List ℚ) (bestBox : BoundingBox) : FishAnalysis :=
  let fc := selectSpecies spData
  let dIdx := idxOfMax dzData
  let dName0 := DISEASE_LABELS.getD dIdx "unknown"
  let dPair := if 0.3 < dzData.getD 2 0 then ("White Spot Risk", dzData.getD 2 0 * 100)
               else if 0.4 < dzData.getD 0 0 then ("Black Gill Risk", dzData.getD 0 0 * 100)
               else (dName0, dzData.getD dIdx 0 * 100)
  { species := ⟨fc.label, fc.score * 100⟩
    freshness := ⟨0.95, "Fresh"⟩
    disease := ⟨dPair.1, dPair.1 != "Healthy", dPair.2⟩
    boundingBox := bestBox }

end Hook

namespace Worker

/-- Box decoded from anchor `i` in the worker variant: corners are
always divided by the 320 grid and then half-clamped. -/
def decodeAnchor (data : Nat → ℚ) (i : Nat) : BoundingBox :=
  let cx := data (i * 11)
  let cy := data (i * 11 + 1)
  let w := data (i * 11 + 2)
  let h := data (i * 11 + 3)
  ⟨max 0 ((cy - h / 2) / 320), max 0 ((cx - w / 2) / 320),
   min 1 ((cy + h / 2) / 320), min 1 ((cx + w / 2) / 320)⟩

/-- One iteration of the worker anchor loop. -/
def detStep (data : Nat → ℚ) (s : BoundingBox × ℚ) (i : Nat) : BoundingBox × ℚ :=
  let m := anchorMax data i
  if 0.25 < m ∧ s.2 < m then (decodeAnchor data i, m) else s

/-- Full scan of the 2100 anchors in the worker, starting from the
fixed default box. -/
def detectBox (data : Nat → ℚ) : BoundingBox :=
  ((List.range 2100).foldl (detStep data) (⟨0.1, 0.1, 0.9, 0.9⟩, 0)).1

/-- Final species choice of the worker: same ordered rules as the
three-model pipeline. -/
def selectSpecies (spData : List ℚ) : Pred :=
  let ps := sortPreds (mkPredictions spData)
  Main.seaBassRule ps (Main.afterBackground ps)

/-- Humble AI display calibration of the worker, with the random draw
`r` made an explicit argument. -/
def humbleScore (s r : ℚ) : ℚ :=
  if s < 0.80 then 0.82 + r * 0.08 else if 0.98 < s then 0.94 + r * 0.03 else s

/-- Disease verdict of the worker: name and risk flag from the paranoid
per-class thresholds, defaulting to Healthy with no risk. -/
def diseaseVerdict (dzData : List ℚ) : String × Bool :=
  if 0.30 < dzData.getD 2 0 then ("White Spot Risk", true)
  else if 0.40 < dzData.getD 0 0 then ("Black Gill Risk", true)
  else ("Healthy", false)

/-- Full worker analysis of one frame from the detector tape, the two
classification vectors and the random draw. -/
def analyze (data : Nat → ℚ) (spData dzData : List ℚ) (r : ℚ) : FishAnalysis :=
  let bestBox := detectBox data
  let fc := selectSpecies spData
  let displayScore := humbleScore fc.score r
  let dIdx := idxOfMax dzData
  let dv := diseaseVerdict dzData
  { species := ⟨fc.label, displayScore * 100⟩
    freshness := ⟨0.95, "Fresh"⟩
    disease := ⟨dv.1, dv.2, dzData.getD dIdx 0 * 100⟩
    boundingBox := bestBox }

end Worker

namespace Legacy

/-- Box decoded from anchor `i` in the legacy variant: corners are
divided by 320 with no clamping at all. -/
def decodeAnchor (data : Nat → ℚ) (i : Nat) : BoundingBox :=
  let cx := data (i * 11)
  let cy := data (i * 11 + 1)
  let w := data (i * 11 + 2)
  let h := data (i * 11 + 3)
  ⟨(cy - h / 2) / 320, (cx - w / 2) / 320,
   (cy + h / 2) / 320, (cx + w / 2) / 320⟩

/-- One iteration of the legacy anchor loop: the box is an option,
still unset when no anchor has passed the threshold. -/
def detStep (data : Nat → ℚ) (s : Option BoundingBox × ℚ) (i : Nat) :
    Option BoundingBox × ℚ :=
  let m := anchorMax data i
  if 0.25 < m ∧ s.2 < m then (some (decodeAnchor data i), m) else s

/-- Full scan of the 2100 anchors in the legacy variant, falling back
to the fixed default box when no anchor passed. -/
def detectBox (data : Nat → ℚ) : BoundingBox :=
  (((List.range 2100).foldl (detStep data) (none, 0)).1).getD ⟨0.1, 0.1, 0.9, 0.9⟩

end Legacy

/-- The box invariant stated by the specification: both coordinate
chains ordered and inside the unit interval. -/
def boxOK (b : BoundingBox) : Prop :=
  0 ≤ b.yMin ∧ b.yMin ≤ b.yMax ∧ b.yMax ≤ 1 ∧
  0 ≤ b.xMin ∧ b.xMin ≤ b.xMax ∧ b.xMax ≤ 1

/-- Well-behaved raw corners for anchor `i`: each low corner at most its
high corner, low corners at most 1 and high corners at least 0. This
holds in particular when all raw corners already lie in the unit
interval. -/
def cornerOK (data : Nat → ℚ) (i : Nat) : Prop :=
  let c := Main.rawCorners data i
  c.1 ≤ c.2.2.1 ∧ c.1 ≤ 1 ∧ 0 ≤ c.2.2.1 ∧
  c.2.1 ≤ c.2.2.2 ∧ c.2.1 ≤ 1 ∧ 0 ≤ c.2.2.2

/-- A detector outcome whose data, if present, has well-behaved raw
corners at every anchor. -/
def detOK (det : Except String (Nat → ℚ)) : Prop :=
  ∀ data, det = Except.ok data → ∀ i, i < 2100 → cornerOK data i

/-- The documented display band of the worker calibration for a raw
chosen score: low scores land in the low band, scores above the high
ceiling in the high band, and everything else is shown unchanged. -/
def WBand (s c : ℚ) : Prop :=
  if s < 0.80 then 82 ≤ c ∧ c < 90
  else if 0.98 < s then 94 ≤ c ∧ c < 97
  else c = s * 100

/-- All-zero species vector of the schema length. -/
def spZeros : List ℚ := List.replicate 18 0

/-- Detector tape whose anchor 0 is judged normalized by the scale
heuristic while its center row coordinate is far outside the unit
interval, with one class score above the threshold. -/
def dataC1 : Nat → ℚ := fun n =>
  if n = 0 then 1 else if n = 1 then 300 else if n = 2 then 1
  else if n = 4 then 1/2 else 0

/-- Species vector whose sorted order is background 0.90, sea_bass 0.06,
catla 0.055: the anti-background override picks sea_bass and the
confusable-pair rule then replaces it with catla. -/
def spC3 : List ℚ :=
  [0, 11/200, 0, 0, 0, 0, 0, 0, 0, 0, 0, 3/50, 0, 0, 0, 0, 0, 9/10]

/-- Species vector with background 0.90 on top and tilapia 0.06 as the
runner-up. -/
def spW3 : List ℚ :=
  [0, 0, 0, 0, 0, 0, 0, 0, 0, 0, 0, 0, 0, 0, 0, 3/50, 0, 9/10]

/-- Species vector with sea_bass 0.40 on top and catla 0.10 below. -/
def spW7 : List ℚ :=
  [0, 1/10, 0, 0, 0, 0, 0, 0, 0, 0, 0, 2/5, 0, 0, 0, 0, 0, 0]

/-- Disease vector where the class A score 0.39 is the arg-max while
neither risk threshold is crossed. -/
def dzC2 : List ℚ := [39/100, 1/5, 29/100]

/-! ### Helper lemmas -/

theorem Main.detStep_fixed (data : Nat → ℚ) (s : Main.DetSt) (i : Nat)
    (h : anchorMax data i ≤ 0.25) : Main.detStep data s i = s := by
  unfold Main.detStep
  simp only [if_neg (not_lt.mpr h)]

theorem Main.foldl_detStep_fixed (data : Nat → ℚ) (l : List Nat) (s : Main.DetSt)
    (h : ∀ i ∈ l, anchorMax data i ≤ 0.25) :
    l.foldl (Main.detStep data) s = s := by
  induction l generalizing s with
  | nil => rfl
  | cons a l ih =>
    rw [List.foldl_cons, Main.detStep_fixed data s a (h a (List.mem_cons_self a l)),
      ih s (fun i hi => h i (List.mem_cons_of_mem a hi))]

theorem Main.foldl_detStep_box (data : Nat → ℚ) (l : List Nat) (s : Main.DetSt) :
    (l.foldl (Main.detStep data) s).bestBox = s.bestBox ∨
    ∃ i ∈ l, (l.foldl (Main.detStep data) s).bestBox = Main.decodeAnchor data i := by
  induction l generalizing s with
  | nil => exact Or.inl rfl
  | cons a l ih =>
    rw [List.foldl_cons]
    rcases ih (Main.detStep data s a) with h | ⟨i, hi, hh⟩
    · rw [h]
      unfold Main.detStep
      by_cases h1 : (0.25 : ℚ) < anchorMax data a
      · by_cases h2 : s.maxScore < anchorMax data a
        · exact Or.inr ⟨a, List.mem_cons_self a l, by simp only [if_pos h1, if_pos h2]⟩
        · exact Or.inl (by simp only [if_pos h1, if_neg h2])
      · exact Or.inl (by simp only [if_neg h1])
    · exact Or.inr ⟨i, List.mem_cons_of_mem a hi, hh⟩

theorem Main.innerBody_ok_box (b : BoundingBox) (sp dz : Except String (List ℚ))
    (r : FishAnalysis) (h : Main.innerBody b sp dz = Except.ok r) :
    r.boundingBox = b := by
  cases sp with
  | error e => exact absurd h (by simp [Main.innerBody])
  | ok spData =>
    cases dz with
    | error e => exact absurd h (by simp [Main.innerBody])
    | ok dzData =>
      by_cases he : spData.isEmpty
      · exact absurd h (by simp [Main.innerBody, he])
      · simp only [Main.innerBody, if_neg he, Except.ok.injEq] at h
        rw [← h]
        rfl

theorem Main.analyzeFish_box (data : Nat → ℚ) (sp dz : Except String (List ℚ)) :
    (Main.analyzeFish (Except.ok data) sp dz).boundingBox = (Main.detectBox data).bestBox := by
  show (match Main.innerBody (Main.detectBox data).bestBox sp dz with
    | .ok r => r
    | .error _ =>
      { Main.FALLBACK_RESULT with boundingBox := (Main.detectBox data).bestBox }).boundingBox =
    (Main.detectBox data).bestBox
  cases h : Main.innerBody (Main.detectBox data).bestBox sp dz with
  | ok r => exact Main.innerBody_ok_box _ _ _ _ h
  | error e => rfl

theorem Main.analyzeFishE_eq (det : Except String (Nat → ℚ)) (sp dz : Except String (List ℚ)) :
    Main.analyzeFishE det sp dz = Except.ok (Main.analyzeFish det sp dz) := by
  cases det with
  | error e => rfl
  | ok data =>
    show Except.tryCatch
        (Except.tryCatch (Main.innerBody (Main.detectBox data).bestBox sp dz)
          (fun _ => .ok { Main.FALLBACK_RESULT with
            boundingBox := (Main.detectBox data).bestBox }))
        (fun _ => .ok Main.FALLBACK_RESULT) = _
    cases h : Main.innerBody (Main.detectBox data).bestBox sp dz with
    | ok r =>
      simp only [Except.tryCatch, Main.analyzeFish, h]
    | error e =>
      simp only [Except.tryCatch, Main.analyzeFish, h]

theorem sortPreds_sorted (ps : List Pred) : (sortPreds ps).Pairwise predGE :=
  List.sorted_insertionSort predGE ps

theorem find?_max_of_sorted (p : Pred → Bool) (l : List Pred)
    (hs : l.Pairwise predGE) (c : Pred) (hc : l.find? p = some c)
    (x : Pred) (hx : x ∈ l) (hpx : p x = true) : x.score ≤ c.score := by
  induction l with
  | nil => cases hx
  | cons a l ih =>
    by_cases hpa : p a
    · rw [List.find?_cons_of_pos l hpa, Option.some.injEq] at hc
      rcases List.mem_cons.mp hx with rfl | hx'
      · rw [← hc]
      · exact le_trans ((List.pairwise_cons.mp hs).1 x hx') (le_of_eq (by rw [hc]))
    · rw [List.find?_cons_of_neg l hpa] at hc
      rcases List.mem_cons.mp hx with rfl | hx'
      · exact absurd hpx hpa
      · exact ih (List.pairwise_cons.mp hs).2 hc hx'

theorem decodeAnchor_ok (data : Nat → ℚ) (i : Nat) (h : cornerOK data i) :
    boxOK (Main.decodeAnchor data i) := by
  unfold cornerOK at h
  obtain ⟨h1, h2, h3, h4, h5, h6⟩ := h
  exact ⟨le_max_left 0 _, le_min (max_le zero_le_one h2) (max_le h3 h1), min_le_left 1 _,
    le_max_left 0 _, le_min (max_le zero_le_one h5) (max_le h6 h4), min_le_left 1 _⟩

theorem dataC1_zero (n : Nat) (hn : 5 ≤ n) : dataC1 n = 0 := by
  unfold dataC1
  rw [if_neg (by omega), if_neg (by omega), if_neg (by omega), if_neg (by omega)]

theorem dataC1_anchorMax (i : Nat) (hi : 1 ≤ i) : anchorMax dataC1 i ≤ 0.25 := by
  unfold anchorMax
  simp only [List.foldl_cons, List.foldl_nil]
  rw [dataC1_zero (i * 11 + 4) (by omega), dataC1_zero (i * 11 + 5) (by omega),
    dataC1_zero (i * 11 + 6) (by omega), dataC1_zero (i * 11 + 7) (by omega),
    dataC1_zero (i * 11 + 8) (by omega), dataC1_zero (i * 11 + 9) (by omega),
    dataC1_zero (i * 11 + 10) (by omega)]
  norm_num

theorem dataC1_detectBox : Main.detectBox dataC1 = ⟨⟨300, 1/2, 1, 1⟩, 1/2, 1⟩ := by
  unfold Main.detectBox
  rw [show (2100 : Nat) = 2099 + 1 from rfl, List.range_succ_eq_map, List.foldl_cons,
    Main.foldl_detStep_fixed dataC1 (List.map Nat.succ (List.range 2099))
      (Main.detStep dataC1 ⟨⟨0.1, 0.1, 0.9, 0.9⟩, 0, 0⟩ 0)
      (fun i hi => by
        rcases List.mem_map.mp hi with ⟨j, _, rfl⟩
        exact dataC1_anchorMax _ (by omega))]
  decide

/-! ### Claim theorems -/

/-- C1, counterexample: the produced box does not always satisfy the
invariant, and corners are not always clamped into the unit interval.
On a detector tape whose winning anchor has center row coordinate 300
but is judged normalized by the scale heuristic, the clamping pipeline
returns a box with yMin equal to 300, violating both yMin at most yMax
and yMin at most 1. -/
theorem claim1_counterexample :
    (Main.analyzeFish (Except.ok dataC1) (Except.ok spZeros)
      (Except.ok [0, 0, 0])).boundingBox.yMin = 300 ∧
    ¬ boxOK (Main.analyzeFish (Except.ok dataC1) (Except.ok spZeros)
      (Except.ok [0, 0, 0])).boundingBox := by
  have hb : (Main.analyzeFish (Except.ok dataC1) (Except.ok spZeros)
      (Except.ok [0, 0, 0])).boundingBox = ⟨300, 1/2, 1, 1⟩ := by
    rw [Main.analyzeFish_box, dataC1_detectBox]
  rw [hb]
  norm_num [boxOK]

/-- C1, amended: every fallback box satisfies the invariant, and so does
every produced box coming from a detector tape whose raw decoded corners
are well behaved at each anchor (low corner at most high corner, low at
most 1, high at least 0 - in particular whenever the raw corners already
lie in the unit interval). Without that hypothesis only the half
clamping holds: low corners are clamped below at 0 and high corners
above at 1. -/
theorem claim1_amended (det : Except String (Nat → ℚ)) (sp dz : Except String (List ℚ))
    (H : detOK det) : boxOK (Main.analyzeFish det sp dz).boundingBox := by
  cases det with
  | error e =>
    show boxOK Main.FALLBACK_RESULT.boundingBox
    norm_num [boxOK, Main.FALLBACK_RESULT]
  | ok data =>
    rw [Main.analyzeFish_box]
    unfold Main.detectBox
    rcases Main.foldl_detStep_box data (List.range 2100) ⟨⟨0.1, 0.1, 0.9, 0.9⟩, 0, 0⟩ with
      h | ⟨i, hi, h⟩
    · rw [h]
      norm_num [boxOK]
    · rw [h]
      exact decodeAnchor_ok data i (H data rfl i (List.mem_range.mp hi))

/-- C1, witness for the amended theorem at the all-zero detector tape. -/
theorem claim1_witness :
    detOK (Except.ok (fun _ => (0 : ℚ))) ∧
    boxOK (Main.analyzeFish (Except.ok (fun _ => (0 : ℚ))) (Except.ok spZeros)
      (Except.ok [0, 0, 0])).boundingBox := by
  have hok : detOK (Except.ok (fun _ => (0 : ℚ))) := by
    intro data hd i _
    injection hd with hd
    subst hd
    norm_num [cornerOK, Main.rawCorners]
  exact ⟨hok, claim1_amended _ _ _ hok⟩

/-- C4: for every combination of stage outcomes, the pipeline with its
two protection boundaries produces exactly one well-formed result and
never lets a failure escape: the catch-explicit pipeline always returns
an ok value. -/
theorem claim4_no_escape (det : Except String (Nat → ℚ)) (sp dz : Except String (List ℚ)) :
    ∃ r : FishAnalysis, Main.analyzeFishE det sp dz = Except.ok r :=
  ⟨Main.analyzeFish det sp dz, Main.analyzeFishE_eq det sp dz⟩

/-- C5: when classification fails after the box was determined, the
result carries exactly the computed box while every other field takes
the fixed fallback value. -/
theorem claim5_partial_fallback (data : Nat → ℚ) (sp dz : Except String (List ℚ))
    (h : (∃ e, sp = Except.error e) ∨ (∃ e, dz = Except.error e)) :
    Main.analyzeFish (Except.ok data) sp dz =
      { Main.FALLBACK_RESULT with boundingBox := (Main.detectBox data).bestBox } := by
  rcases h with ⟨e, rfl⟩ | ⟨e, rfl⟩
  · rfl
  · cases sp with
    | error e2 => rfl
    | ok spData =>
      show (match Main.innerBody (Main.detectBox data).bestBox (Except.ok spData)
          (Except.error e) with
        | .ok r => r
        | .error _ =>
          { Main.FALLBACK_RESULT with boundingBox := (Main.detectBox data).bestBox }) = _
      rfl

/-- C5, witness: a species stage failure on the all-zero tape. -/
theorem claim5_witness :
    ((∃ e, (Except.error "model failed" : Except String (List ℚ)) = Except.error e) ∨
      (∃ e, (Except.ok [0, 0, 0] : Except String (List ℚ)) = Except.error e)) ∧
    Main.analyzeFish (Except.ok (fun _ => (0 : ℚ))) (Except.error "model failed")
        (Except.ok [0, 0, 0]) =
      { Main.FALLBACK_RESULT with
        boundingBox := (Main.detectBox (fun _ => (0 : ℚ))).bestBox } :=
  ⟨Or.inl ⟨"model failed", rfl⟩,
    claim5_partial_fallback _ _ _ (Or.inl ⟨"model failed", rfl⟩)⟩

/-- C9: when no anchor clears the 0.25 detection threshold, the result
box is the fixed default box. -/
theorem claim9_default_box (data : Nat → ℚ) (sp dz : Except String (List ℚ))
    (H : ∀ i, i < 2100 → anchorMax data i ≤ 0.25) :
    (Main.analyzeFish (Except.ok data) sp dz).boundingBox = ⟨0.1, 0.1, 0.9, 0.9⟩ := by
  rw [Main.analyzeFish_box]
  unfold Main.detectBox
  rw [Main.foldl_detStep_fixed data _ _ (fun i hi => H i (List.mem_range.mp hi))]

/-- C2, counterexample: on the disease vector with class A score 0.39,
healthy 0.20 and class B score 0.29, neither threshold is crossed and
the arg-max label is the class A disease, yet the pipeline reports the
fixed name Healthy instead of the arg-max label. -/
theorem claim2_counterexample :
    idxOfMax dzC2 = 0 ∧
    DISEASE_LABELS.getD (idxOfMax dzC2) "unknown" = "black_gill_disease" ∧
    dzC2.getD 2 0 ≤ 0.30 ∧ dzC2.getD 0 0 ≤ 0.40 ∧
    (Main.assembleResult spZeros dzC2 ⟨0.1, 0.1, 0.9, 0.9⟩).disease.name = "Healthy" ∧
    (Main.assembleResult spZeros dzC2 ⟨0.1, 0.1, 0.9, 0.9⟩).disease.name ≠
      DISEASE_LABELS.getD (idxOfMax dzC2) "unknown" := by
  decide

/-- C2, amended: for every disease vector a, h, b the verdict is the
class B flag when b exceeds 0.30, otherwise the class A flag when a
exceeds 0.40, and otherwise the fixed name Healthy with no disease flag
(which coincides with the arg-max label only when healthy is the
arg-max); in particular the vector 0.35, 0.55, 0.10 yields Healthy and
the vector 0.10, 0.55, 0.35 yields the class B flag even though healthy
has the highest raw score. -/
theorem claim2_amended (sp : List ℚ) (box : BoundingBox) (a h b : ℚ) :
    ((Main.assembleResult sp [a, h, b] box).disease.name =
      if 0.30 < b then "White Spot Risk"
      else if 0.40 < a then "Black Gill Risk" else "Healthy") ∧
    ((Main.assembleResult sp [a, h, b] box).disease.hasDisease =
      if 0.30 < b then true else if 0.40 < a then true else false) ∧
    (Main.assembleResult sp [7/20, 11/20, 1/10] box).disease.name = "Healthy" ∧
    (Main.assembleResult sp [7/20, 11/20, 1/10] box).disease.hasDisease = false ∧
    (Main.assembleResult sp [1/10, 11/20, 7/20] box).disease.name = "White Spot Risk" ∧
    (Main.assembleResult sp [1/10, 11/20, 7/20] box).disease.hasDisease = true := by
  refine ⟨rfl, ?_, rfl, rfl, rfl, rfl⟩
  show ((if (0.30 : ℚ) < b then "White Spot Risk"
    else if (0.40 : ℚ) < a then "Black Gill Risk" else "Healthy") != "Healthy") = _
  by_cases hb : (0.30 : ℚ) < b
  · simp only [if_pos hb]
    decide
  · simp only [if_neg hb]
    by_cases ha : (0.40 : ℚ) < a
    · simp only [if_pos ha]
      decide
    · simp only [if_neg ha]
      decide

/-- C3, counterexample: with background 0.90 on top, runner-up sea_bass
0.06 above the 0.05 override threshold and catla 0.055 below it in the
ranking, the anti-background override does pick the runner-up, but the
confusable-pair rule then replaces it, so the result species is catla
and not the runner-up. -/
theorem claim3_counterexample :
    ((sortPreds (mkPredictions spC3)).headD defaultPred).label = "wild_fish_background" ∧
    0.05 < ((sortPreds (mkPredictions spC3)).getD 1 defaultPred).score ∧
    ((sortPreds (mkPredictions spC3)).getD 1 defaultPred).label = "sea_bass" ∧
    (Main.assembleResult spC3 [0, 0, 0] ⟨0.1, 0.1, 0.9, 0.9⟩).species.name = "catla" ∧
    (Main.assembleResult spC3 [0, 0, 0] ⟨0.1, 0.1, 0.9, 0.9⟩).species.name ≠
      ((sortPreds (mkPredictions spC3)).getD 1 defaultPred).label := by
  decide

/-- C3, amended: when the top ranked label is the background label and
the runner-up clears 0.05, the anti-background override picks the
runner-up; the final result species is the runner-up unless the
subsequent confusable-pair correction replaces it - in particular the
result species equals the runner-up whenever the runner-up is not the
sea_bass label. -/
theorem claim3_amended (sp dz : List ℚ) (box : BoundingBox)
    (h1 : ((sortPreds (mkPredictions sp)).headD defaultPred).label = "wild_fish_background")
    (h2 : 0.05 < ((sortPreds (mkPredictions sp)).getD 1 defaultPred).score) :
    Main.afterBackground (sortPreds (mkPredictions sp)) =
      (sortPreds (mkPredictions sp)).getD 1 defaultPred ∧
    (Main.assembleResult sp dz box).species.name =
      (Main.seaBassRule (sortPreds (mkPredictions sp))
        ((sortPreds (mkPredictions sp)).getD 1 defaultPred)).label ∧
    (((sortPreds (mkPredictions sp)).getD 1 defaultPred).label ≠ "sea_bass" →
      (Main.assembleResult sp dz box).species.name =
        ((sortPreds (mkPredictions sp)).getD 1 defaultPred).label) := by
  have hab : Main.afterBackground (sortPreds (mkPredictions sp)) =
      (sortPreds (mkPredictions sp)).getD 1 defaultPred := by
    unfold Main.afterBackground
    rw [if_pos (And.intro h1 h2)]
  have hname : (Main.assembleResult sp dz box).species.name =
      (Main.seaBassRule (sortPreds (mkPredictions sp))
        (Main.afterBackground (sortPreds (mkPredictions sp)))).label := rfl
  refine ⟨hab, by rw [hname, hab], ?_⟩
  intro hne
  rw [hname, hab]
  unfold Main.seaBassRule
  rw [if_neg (fun hcon => hne hcon.1)]

/-- C3, witness for the amended theorem: background 0.90 on top with
runner-up tilapia 0.06. -/
theorem claim3_witness :
    (((sortPreds (mkPredictions spW3)).headD defaultPred).label = "wild_fish_background" ∧
      0.05 < ((sortPreds (mkPredictions spW3)).getD 1 defaultPred).score) ∧
    (Main.afterBackground (sortPreds (mkPredictions spW3)) =
      (sortPreds (mkPredictions spW3)).getD 1 defaultPred ∧
    (Main.assembleResult spW3 [0, 0, 0] ⟨0.1, 0.1, 0.9, 0.9⟩).species.name =
      (Main.seaBassRule (sortPreds (mkPredictions spW3))
        ((sortPreds (mkPredictions spW3)).getD 1 defaultPred)).label ∧
    (((sortPreds (mkPredictions spW3)).getD 1 defaultPred).label ≠ "sea_bass" →
      (Main.assembleResult spW3 [0, 0, 0] ⟨0.1, 0.1, 0.9, 0.9⟩).species.name =
        ((sortPreds (mkPredictions spW3)).getD 1 defaultPred).label)) := by
  have h1 : ((sortPreds (mkPredictions spW3)).headD defaultPred).label =
      "wild_fish_background" := by decide
  have h2 : (0.05 : ℚ) < ((sortPreds (mkPredictions spW3)).getD 1 defaultPred).score := by
    decide
  exact ⟨⟨h1, h2⟩, claim3_amended spW3 [0, 0, 0] ⟨0.1, 0.1, 0.9, 0.9⟩ h1 h2⟩

/-- C6: the chosen label is never changed by the calibration; for a raw
chosen score in the unit interval, a score below 0.80 is displayed in
the band 82 to 90, a score above the 0.95 ceiling in the band 93 to 97,
and every displayed confidence lies in 0 to 100. -/
theorem claim6_calibration (sp dz : List ℚ) (box : BoundingBox)
    (h0 : 0 ≤ (Main.selectSpecies sp).score) (h1 : (Main.selectSpecies sp).score ≤ 1) :
    (Main.assembleResult sp dz box).species.name = (Main.selectSpecies sp).label ∧
    ((Main.selectSpecies sp).score < 0.80 →
      82 ≤ (Main.assembleResult sp dz box).species.confidence ∧
      (Main.assembleResult sp dz box).species.confidence ≤ 90) ∧
    (0.95 < (Main.selectSpecies sp).score →
      93 ≤ (Main.assembleResult sp dz box).species.confidence ∧
      (Main.assembleResult sp dz box).species.confidence ≤ 97) ∧
    0 ≤ (Main.assembleResult sp dz box).species.confidence ∧
    (Main.assembleResult sp dz box).species.confidence ≤ 100 := by
  have hconf : (Main.assembleResult sp dz box).species.confidence =
      Main.humbleScore (Main.selectSpecies sp).score * 100 := rfl
  set s := (Main.selectSpecies sp).score with hs
  refine ⟨rfl, ?_, ?_, ?_⟩
  · intro hlow
    rw [hconf]
    unfold Main.humbleScore
    rw [if_pos hlow]
    constructor
    · nlinarith
    · nlinarith
  · intro hhigh
    rw [hconf]
    unfold Main.humbleScore
    rw [if_neg (by linarith), if_pos hhigh]
    norm_num
  · rw [hconf]
    unfold Main.humbleScore
    split_ifs with hl hh
    · constructor
      · nlinarith
      · nlinarith
    · norm_num
    · constructor
      · nlinarith
      · nlinarith

/-- C6, witness at the all-zero species vector, whose chosen raw score
is 0. -/
theorem claim6_witness :
    (0 ≤ (Main.selectSpecies spZeros).score ∧ (Main.selectSpecies spZeros).score ≤ 1) ∧
    ((Main.assembleResult spZeros [0, 0, 0] ⟨0.1, 0.1, 0.9, 0.9⟩).species.name =
        (Main.selectSpecies spZeros).label ∧
      ((Main.selectSpecies spZeros).score < 0.80 →
        82 ≤ (Main.assembleResult spZeros [0, 0, 0] ⟨0.1, 0.1, 0.9, 0.9⟩).species.confidence ∧
        (Main.assembleResult spZeros [0, 0, 0] ⟨0.1, 0.1, 0.9, 0.9⟩).species.confidence ≤ 90) ∧
      (0.95 < (Main.selectSpecies spZeros).score →
        93 ≤ (Main.assembleResult spZeros [0, 0, 0] ⟨0.1, 0.1, 0.9, 0.9⟩).species.confidence ∧
        (Main.assembleResult spZeros [0, 0, 0] ⟨0.1, 0.1, 0.9, 0.9⟩).species.confidence ≤ 97) ∧
      0 ≤ (Main.assembleResult spZeros [0, 0, 0] ⟨0.1, 0.1, 0.9, 0.9⟩).species.confidence ∧
      (Main.assembleResult spZeros [0, 0, 0] ⟨0.1, 0.1, 0.9, 0.9⟩).species.confidence ≤ 100) := by
  have h0 : 0 ≤ (Main.selectSpecies spZeros).score := by decide
  have h1 : (Main.selectSpecies spZeros).score ≤ 1 := by decide
  exact ⟨⟨h0, h1⟩, claim6_calibration spZeros [0, 0, 0] ⟨0.1, 0.1, 0.9, 0.9⟩ h0 h1⟩

/-- C7: when the choice after the anti-background override is the
sea_bass label with score below 0.50 and some catla or rohu entry
scores above 0.05, the final species is the first such entry in the
ranking, which is itself a catla or rohu entry above 0.05. -/
theorem claim7_seabass (sp dz : List ℚ) (box : BoundingBox)
    (h1 : (Main.afterBackground (sortPreds (mkPredictions sp))).label = "sea_bass")
    (h2 : (Main.afterBackground (sortPreds (mkPredictions sp))).score < 0.50)
    (h3 : ∃ p ∈ sortPreds (mkPredictions sp),
      (p.label = "catla" ∨ p.label = "rohu") ∧ 0.05 < p.score) :
    ∃ c, (sortPreds (mkPredictions sp)).find?
        (fun p => p.label == "catla" || p.label == "rohu") = some c ∧
      (c.label = "catla" ∨ c.label = "rohu") ∧ 0.05 < c.score ∧
      (Main.assembleResult sp dz box).species.name = c.label := by
  obtain ⟨p, hp, hlab, hsc⟩ := h3
  have hpb : (fun q : Pred => q.label == "catla" || q.label == "rohu") p = true := by
    rcases hlab with h | h <;> simp [h]
  have hsome : ((sortPreds (mkPredictions sp)).find?
      (fun p => p.label == "catla" || p.label == "rohu")).isSome :=
    List.find?_isSome.mpr ⟨p, hp, hpb⟩
  obtain ⟨c, hc⟩ := Option.isSome_iff_exists.mp hsome
  have hcb := List.find?_some hc
  have hclab : c.label = "catla" ∨ c.label = "rohu" := by simpa using hcb
  have hcs : (0.05 : ℚ) < c.score :=
    lt_of_lt_of_le hsc (find?_max_of_sorted _ _ (sortPreds_sorted _) c hc p hp hpb)
  refine ⟨c, hc, hclab, hcs, ?_⟩
  have hname : (Main.assembleResult sp dz box).species.name =
      (Main.seaBassRule (sortPreds (mkPredictions sp))
        (Main.afterBackground (sortPreds (mkPredictions sp)))).label := rfl
  rw [hname]
  unfold Main.seaBassRule
  rw [if_pos (And.intro h1 h2), hc]
  show (if (0.05 : ℚ) < c.score then c else
    Main.afterBackground (sortPreds (mkPredictions sp))).label = c.label
  rw [if_pos hcs]

/-- C7, witness: sea_bass 0.40 chosen with catla 0.10 present. -/
theorem claim7_witness :
    ((Main.afterBackground (sortPreds (mkPredictions spW7))).label = "sea_bass" ∧
      (Main.afterBackground (sortPreds (mkPredictions spW7))).score < 0.50 ∧
      (∃ p ∈ sortPreds (mkPredictions spW7),
        (p.label = "catla" ∨ p.label = "rohu") ∧ 0.05 < p.score)) ∧
    (∃ c, (sortPreds (mkPredictions spW7)).find?
        (fun p => p.label == "catla" || p.label == "rohu") = some c ∧
      (c.label = "catla" ∨ c.label = "rohu") ∧ 0.05 < c.score ∧
      (Main.assembleResult spW7 [0, 0, 0] ⟨0.1, 0.1, 0.9, 0.9⟩).species.name = c.label) := by
  have h1 : (Main.afterBackground (sortPreds (mkPredictions spW7))).label = "sea_bass" := by
    decide
  have h2 : (Main.afterBackground (sortPreds (mkPredictions spW7))).score < 0.50 := by
    decide
  have h3 : ∃ p ∈ sortPreds (mkPredictions spW7),
      (p.label = "catla" ∨ p.label = "rohu") ∧ 0.05 < p.score :=
    ⟨⟨1, "catla", 1/10⟩, by decide, by decide⟩
  exact ⟨⟨h1, h2, h3⟩, claim7_seabass spW7 [0, 0, 0] ⟨0.1, 0.1, 0.9, 0.9⟩ h1 h2 h3⟩

/-- C8: two worker runs on identical model outputs with different
random draws agree on the species label, the whole disease verdict, the
freshness field and the bounding box; only the calibrated species
confidence may differ, and for draws in the unit interval it lies in
the documented band on both runs. -/
theorem claim8_determinism (data : Nat → ℚ) (sp dz : List ℚ) (r₁ r₂ : ℚ)
    (ha : 0 ≤ r₁) (hb : r₁ < 1) (hc : 0 ≤ r₂) (hd : r₂ < 1) :
    (Worker.analyze data sp dz r₁).species.name =
      (Worker.analyze data sp dz r₂).species.name ∧
    (Worker.analyze data sp dz r₁).disease = (Worker.analyze data sp dz r₂).disease ∧
    (Worker.analyze data sp dz r₁).freshness = (Worker.analyze data sp dz r₂).freshness ∧
    (Worker.analyze data sp dz r₁).boundingBox =
      (Worker.analyze data sp dz r₂).boundingBox ∧
    WBand (Worker.selectSpecies sp).score (Worker.analyze data sp dz r₁).species.confidence ∧
    WBand (Worker.selectSpecies sp).score (Worker.analyze data sp dz r₂).species.confidence := by
  have hband : ∀ r : ℚ, 0 ≤ r → r < 1 →
      WBand (Worker.selectSpecies sp).score
        (Worker.humbleScore (Worker.selectSpecies sp).score r * 100) := by
    intro r hr0 hr1
    unfold WBand Worker.humbleScore
    split_ifs with hl hh
    · constructor
      · nlinarith
      · nlinarith
    · constructor
      · nlinarith
      · nlinarith
    · rfl
  exact ⟨rfl, rfl, rfl, rfl, hband r₁ ha hb, hband r₂ hc hd⟩

/-- C8, witness at the all-zero outputs with draws 0 and one half. -/
theorem claim8_witness :
    ((0 : ℚ) ≤ 0 ∧ (0 : ℚ) < 1 ∧ (0 : ℚ) ≤ 1/2 ∧ (1 : ℚ)/2 < 1) ∧
    ((Worker.analyze (fun _ => 0) spZeros [0, 0, 0] 0).species.name =
      (Worker.analyze (fun _ => 0) spZeros [0, 0, 0] (1/2)).species.name ∧
    (Worker.analyze (fun _ => 0) spZeros [0, 0, 0] 0).disease =
      (Worker.analyze (fun _ => 0) spZeros [0, 0, 0] (1/2)).disease ∧
    (Worker.analyze (fun _ => 0) spZeros [0, 0, 0] 0).freshness =
      (Worker.analyze (fun _ => 0) spZeros [0, 0, 0] (1/2)).freshness ∧
    (Worker.analyze (fun _ => 0) spZeros [0, 0, 0] 0).boundingBox =
      (Worker.analyze (fun _ => 0) spZeros [0, 0, 0] (1/2)).boundingBox ∧
    WBand (Worker.selectSpecies spZeros).score
      (Worker.analyze (fun _ => 0) spZeros [0, 0, 0] 0).species.confidence ∧
    WBand (Worker.selectSpecies spZeros).score
      (Worker.analyze (fun _ => 0) spZeros [0, 0, 0] (1/2)).species.confidence) := by
  refine ⟨by norm_num, claim8_determinism (fun _ => 0) spZeros [0, 0, 0] 0 (1/2)
    (by norm_num) (by norm_num) (by norm_num) (by norm_num)⟩

/-- C10: in the split-hook variant, on a successful classification path
where neither disease threshold is crossed and the arg-max index is the
healthy class, the disease name is the lowercase arg-max label healthy,
yet the hasDisease flag is true because it compares the name against
the capitalized string Healthy. -/
theorem claim10_hasDisease (sp dz : List ℚ) (box : BoundingBox)
    (hb : dz.getD 2 0 ≤ 0.3) (ha : dz.getD 0 0 ≤ 0.4) (hidx : idxOfMax dz = 1) :
    (Hook.assembleResult sp dz box).disease.name = "healthy" ∧
    (Hook.assembleResult sp dz box).disease.hasDisease = true := by
  simp only [Hook.assembleResult]
  rw [if_neg (not_lt.mpr hb), if_neg (not_lt.mpr ha), hidx]
  exact ⟨rfl, rfl⟩

/-- C10, witness at the disease vector 0.10, 0.50, 0.10. -/
theorem claim10_witness :
    (([(1 : ℚ)/10, 1/2, 1/10].getD 2 0 ≤ 0.3 ∧
      [(1 : ℚ)/10, 1/2, 1/10].getD 0 0 ≤ 0.4 ∧
      idxOfMax [(1 : ℚ)/10, 1/2, 1/10] = 1) ∧
    ((Hook.assembleResult spZeros [(1 : ℚ)/10, 1/2, 1/10]
        ⟨0.1, 0.1, 0.9, 0.9⟩).disease.name = "healthy" ∧
      (Hook.assembleResult spZeros [(1 : ℚ)/10, 1/2, 1/10]
        ⟨0.1, 0.1, 0.9, 0.9⟩).disease.hasDisease = true)) := by
  have hb : [(1 : ℚ)/10, 1/2, 1/10].getD 2 0 ≤ 0.3 := by decide
  have ha : [(1 : ℚ)/10, 1/2, 1/10].getD 0 0 ≤ 0.4 := by decide
  have hidx : idxOfMax [(1 : ℚ)/10, 1/2, 1/10] = 1 := by decide
  exact ⟨⟨hb, ha, hidx⟩,
    claim10_hasDisease spZeros [(1 : ℚ)/10, 1/2, 1/10] ⟨0.1, 0.1, 0.9, 0.9⟩ hb ha hidx⟩

/-- C9, witness at the all-zero detector tape. -/
theorem claim9_witness :
    (∀ i, i < 2100 → anchorMax (fun _ => (0 : ℚ)) i ≤ 0.25) ∧
    (Main.analyzeFish (Except.ok (fun _ => (0 : ℚ))) (Except.ok spZeros)
      (Except.ok [0, 0, 0])).boundingBox = ⟨0.1, 0.1, 0.9, 0.9⟩ := by
  have hz : ∀ i, i < 2100 → anchorMax (fun _ => (0 : ℚ)) i ≤ 0.25 := by
    intro i _
    norm_num [anchorMax]
  exact ⟨hz, claim9_default_box _ _ _ hz⟩

end FishNet
